import Mathlib

/-!
Verification development for the skew ARN locator-matching and traversal core
(`skew/arn/__init__.py` and the `cloudwatch.Alarm` resource metadata).

The Python source is shallowly embedded: strings become `List Char`, fallible
operations return `Option` or `Except`, the lazy generators become functions
returning the list of yielded values (or the first uncaught exception), and the
external collaborators (resource registry, account/profile directory, botocore
endpoint) become fields of an explicit environment record.

Python's `re` module is modelled on exactly the fragment the ARN patterns
exercise: literal characters, `.` (any char) and a postfix `*` on a single
atom.  `reCompile` returns `none` for every pattern outside this fragment
(including patterns that are errors in Python, such as a leading `*`), so
theorems about compiled patterns carry a `reCompile _ = some _` hypothesis.
Matching uses unanchored search semantics, as `re.search` does.
-/

namespace Skew

/-- Strings of the embedded program are lists of characters. -/
abbrev Str := List Char

/-- Raw items returned by the enumeration endpoint are kept abstract as strings. -/
abbrev Item := Str

/-- One regex atom of the modelled fragment: `.` or a literal character. -/
inductive RAtom where
  | dot : RAtom
  | lit : Char → RAtom
deriving DecidableEq

/-- One item of a compiled regex: an atom, possibly under a postfix `*`. -/
structure RItem where
  atom : RAtom
  star : Bool
deriving DecidableEq

/-- Does an atom accept a character. -/
def atomAccept : RAtom → Char → Bool
  | RAtom.dot, _ => true
  | RAtom.lit c, d => c = d

/-- Characters that the modelled regex fragment treats as literals.  Every
other character (regex metacharacters beyond `.` and `*`, and anything
exotic) puts a pattern outside the modelled fragment. -/
def plainChar (c : Char) : Bool :=
  c.isAlphanum || c = '-' || c = '_' || c = '/' || c = ':' || c = ' '

/-- Compile a single character to an atom, if it is in the fragment. -/
def atomOf (c : Char) : Option RAtom :=
  if c = '.' then some RAtom.dot
  else if plainChar c then some (RAtom.lit c)
  else none

/-- Compile a pattern string of the modelled fragment.  A leading `*` (Python:
"nothing to repeat") or any unmodelled character yields `none`. -/
def reCompile : Str → Option (List RItem)
  | [] => some []
  | c :: rest =>
    match atomOf c with
    | none => none
    | some a =>
      match rest with
      | d :: rest2 =>
        if d = '*' then (reCompile rest2).map (fun t => ⟨a, true⟩ :: t)
        else (reCompile (d :: rest2)).map (fun t => ⟨a, false⟩ :: t)
      | [] => some [⟨a, false⟩]

/-- Fuel-driven matcher: does the regex match some prefix of `s`?  The fuel
argument only forces structural recursion; `reMatchHere` always supplies
enough fuel, since every recursive call shrinks `rs.length + s.length`. -/
def reMatchFuel : Nat → List RItem → Str → Bool
  | _, [], _ => true
  | 0, _ :: _, _ => false
  | fuel + 1, ⟨a, false⟩ :: rs, s =>
    match s with
    | [] => false
    | c :: cs => atomAccept a c && reMatchFuel fuel rs cs
  | fuel + 1, ⟨a, true⟩ :: rs, s =>
    reMatchFuel fuel rs s ||
      (match s with
       | [] => false
       | c :: cs => atomAccept a c && reMatchFuel fuel (⟨a, true⟩ :: rs) cs)

/-- Does the regex match some prefix of `s`. -/
def reMatchHere (rs : List RItem) (s : Str) : Bool :=
  reMatchFuel (rs.length + s.length + 1) rs s

/-- Unanchored search, as Python's `re.search`: the regex matches starting at
some position of `s` (including the position at the very end). -/
def reSearch (rs : List RItem) : Str → Bool
  | [] => reMatchHere rs []
  | c :: cs => reMatchHere rs (c :: cs) || reSearch rs cs

/-- The literal token `*`. -/
def starTok : Str := ['*']

/-- The rewritten token `.*` that the matcher substitutes for `*`. -/
def dotStarTok : Str := ['.', '*']

/-- The compiled form of `.*`. -/
def dotStarRE : List RItem := [⟨RAtom.dot, true⟩]

/-- The wildcard rewrite performed at the top of `ARNComponent.match`:
`*` becomes `.*`, everything else is compiled as written. -/
def starRewrite (p : Str) : Str :=
  if p = starTok then dotStarTok else p

/-- Errors that the embedded core can raise.  `patternCompile` stands for
`re.error` escaping `re.compile`; `accountResolution` stands for the
`KeyError` raised by the account-map lookup in `map_account_to_profile`
(the spec's taxonomy names this failure AccountResolutionError). -/
inductive Err where
  | patternCompile : Err
  | accountResolution : Str → Err
deriving DecidableEq

/-- Embedding of `ARNComponent.match(pattern, context)` (the shared base
implementation): the caller's `self.choices(context)` result is passed in as
the `choices` list; the pattern is `*`-rewritten, compiled, and the choices are
filtered by unanchored search, preserving their order. -/
def matchE (choices : List Str) (pattern : Str) : Except Err (List Str) :=
  match reCompile (starRewrite pattern) with
  | none => Except.error Err.patternCompile
  | some r => Except.ok (choices.filter (fun c => reSearch r c))

/-- First-occurrence split: `splitOnceAux sep s = some (a, b)` when `s = a ++ sep :: b`
with `sep ∉ a`; `none` when `sep` does not occur in `s`. -/
def splitOnceAux (sep : Char) : Str → Option (Str × Str)
  | [] => none
  | c :: cs =>
    if c = sep then some ([], cs)
    else
      match splitOnceAux sep cs with
      | some (a, b) => some (c :: a, b)
      | none => none

/-- Python's `s.split(sep, maxsplit)` for a single-character separator, with
the maxsplit count as fuel. -/
def pySplit (sep : Char) : Nat → Str → List Str
  | 0, s => [s]
  | n + 1, s =>
    match splitOnceAux sep s with
    | none => [s]
    | some (a, b) => a :: pySplit sep n b

/-- Embedding of `Resource._split_resource`: split once on the first `/` if
present, else once on the first `:` if present, else the whole token is the
type and the id is `none`. -/
def split_resource (r : Str) : Str × Option Str :=
  if '/' ∈ r then
    match splitOnceAux '/' r with
    | some (t, i) => (t, some i)
    | none => (r, none)
  else if ':' ∈ r then
    match splitOnceAux ':' r with
    | some (t, i) => (t, some i)
    | none => (r, none)
  else (r, none)

/-- Python's `sep.join(fields)` for a single-character separator. -/
def joinSep (sep : Char) : List Str → Str
  | [] => []
  | [f] => f
  | f :: g :: rest => f ++ sep :: joinSep sep (g :: rest)

/-- The ARN object: the six component patterns (each component object of the
source is represented by its `pattern` string) and the optional compiled
query, kept as the raw expression text. -/
structure ARNModel where
  components : List Str
  query : Option Str
deriving DecidableEq

/-- The `scheme` property: `self._components[0]`. -/
def ARNModel.schemePattern (a : ARNModel) : Str := a.components.getD 0 []

/-- The `provider` property: `self._components[1]`. -/
def ARNModel.providerPattern (a : ARNModel) : Str := a.components.getD 1 []

/-- The `service` property: `self._components[2]`. -/
def ARNModel.servicePattern (a : ARNModel) : Str := a.components.getD 2 []

/-- The `region` property: `self._components[3]`. -/
def ARNModel.regionPattern (a : ARNModel) : Str := a.components.getD 3 []

/-- The `account` property: `self._components[4]`. -/
def ARNModel.accountPattern (a : ARNModel) : Str := a.components.getD 4 []

/-- The `resource` property: `self._components[5]`. -/
def ARNModel.resourcePattern (a : ARNModel) : Str := a.components.getD 5 []

/-- Embedding of `ARN.__repr__`: join the component patterns with `:`. -/
def reprStr (a : ARNModel) : Str := joinSep ':' a.components

/-- The `|` handling at the top of `ARN._build_components_from_string`:
`arn_string.split('|')` is unpacked into exactly two names, so when more than
one `|` occurs the unpacking raises ValueError (`none` here). -/
def stripQuery (s : Str) : Option (Str × Option Str) :=
  if '|' ∈ s then
    match pySplit '|' s.length s with
    | [a, q] => some (a, some q)
    | _ => none
  else some (s, none)

/-- Embedding of `ARN._build_components_from_string`.  The source splits with
`arn_string.split(':', 6)` (maxsplit six, producing up to seven fields) and
zips the result with the six component classes via `zip_longest(...,
fillvalue='*')`.  When fewer than six fields are produced, the missing ones are
filled with `'*'`.  When seven fields are produced, `zip_longest` pads the
class list with the fillvalue `'*'` instead, and the comprehension then calls
the string `'*'` as a constructor, raising TypeError (`none` here). -/
def build_components_from_string (s : Str) : Option ARNModel := do
  let (core, query) ← stripQuery s
  let fields := pySplit ':' 6 core
  if fields.length ≤ 6 then
    some ⟨fields ++ List.replicate (6 - fields.length) starTok, query⟩
  else none

/-- Value of one keyword argument of the enumeration call: a single string or
a list of strings (the latter when a list-kind filter wraps the id). -/
inductive CallArg where
  | single : Str → CallArg
  | listv : List Str → CallArg
deriving DecidableEq

/-- The `Meta` metadata of a resource class, as used by `Resource.enumerate`:
the enumeration spec `(operation, result path, extra args)`, the server-side
filter field name (`none` models Python `None`) and its kind. -/
structure RMeta where
  enum_spec : Str × Str × Option (List (Str × CallArg))
  filter_name : Option Str
  filter_type : Str

/-- A registered resource class: its metadata and its client-side id filter
predicate `filter(resource_id, data)` (defined outside the given sources, so
kept abstract). -/
structure RClass where
  meta : RMeta
  filterFn : Str → Item → Bool

/-- The external collaborators of the core, as one explicit environment:
`skew.resources.all_services`, `skew.resources.all_types`, the once-built
account map of the Account component, `skew.resources.find_resource_class`
(keyed by the dotted resource path), and the botocore `endpoint.call`
(given operation, result path, keyword arguments and the resolved context,
it returns the raw item collection). -/
structure Env where
  all_services : Str → List Str
  all_types : Str → Str → List Str
  account_map : List (Str × Str)
  find_resource_class : Str → RClass
  call : Str → Str → List (Str × CallArg) → List Str → List Item

/-- Truthiness of an optional string, as Python `if x:` on `None`-or-`str`. -/
def strTruthy : Option Str → Bool
  | none => false
  | some s => !s.isEmpty

/-- Embedding of `Scheme.choices`: the constant `['arn']`. -/
def Scheme.choices : List Str := ["arn".toList]

/-- Embedding of `Provider.choices`: the constant `['aws']`. -/
def Provider.choices : List Str := ["aws".toList]

/-- Embedding of `Service.choices`: the provider is `context[1]` when the
context is truthy, else the ARN's own provider pattern; the registry supplies
the service names. -/
def Service.choices (env : Env) (arn : ARNModel) (ctx : List Str) : List Str :=
  let provider := if ctx.isEmpty then arn.providerPattern else ctx.getD 1 []
  env.all_services provider

/-- The `_region_names_limited` table of the Region component. -/
def region_names_limited : List Str :=
  ["us-east-1".toList, "us-west-2".toList, "eu-west-1".toList,
   "ap-southeast-1".toList, "ap-southeast-2".toList, "ap-northeast-1".toList]

/-- The `_all_region_names` table of the Region component. -/
def all_region_names : List Str :=
  ["us-east-1".toList, "us-west-1".toList, "us-west-2".toList,
   "eu-west-1".toList, "eu-central-1".toList, "ap-southeast-1".toList,
   "ap-southeast-2".toList, "ap-northeast-1".toList, "sa-east-1".toList]

/-- The `_service_region_map` table: the three restricted services. -/
def service_region_map : List (Str × List Str) :=
  [("redshift".toList, region_names_limited),
   ("glacier".toList, region_names_limited),
   ("kinesis".toList, region_names_limited)]

/-- Embedding of `Region.choices`.  With a truthy context the lookup key is
`context[2]`.  Without one the source computes `service = self._arn.service` —
the Service component object itself, the `.pattern` attribute access is
missing — and a string-keyed dict `.get` never finds that object, so the
default `_all_region_names` is always returned on that path. -/
def Region.choices (_arn : ARNModel) (ctx : List Str) : List Str :=
  if !ctx.isEmpty then
    (service_region_map.lookup (ctx.getD 2 [])).getD all_region_names
  else all_region_names

/-- Embedding of `Account.choices`: the keys of the account map. -/
def Account.choices (env : Env) : List Str := env.account_map.map Prod.fst

/-- Embedding of `Account.map_account_to_profile`: the plain dict indexing
`self._account_map[account]`, whose miss raises KeyError — the failure the
spec's taxonomy calls AccountResolutionError. -/
def map_account_to_profile (m : List (Str × Str)) (account : Str) : Except Err Str :=
  match m.lookup account with
  | some p => Except.ok p
  | none => Except.error (Err.accountResolution account)

/-- Embedding of `Resource.choices`: the service is `context[2]` when the
context is truthy, else the ARN's own service pattern; the registry's types
for (provider pattern, service), with `['*']` substituted when that list is
falsy. -/
def Resource.choices (env : Env) (arn : ARNModel) (ctx : List Str) : List Str :=
  let service := if ctx.isEmpty then arn.servicePattern else ctx.getD 2 []
  let all_resources := env.all_types arn.providerPattern service
  if all_resources.isEmpty then [starTok] else all_resources

/-- Embedding of `Resource.match`: the pattern is split into type and id, and
the base `ARNComponent.match` is called on the type portion only.  The source
passes no context along (`super(Resource, self).match(resource_type)`), so the
inner `choices` call runs with `context=None`; the `ctx` argument is accepted
and ignored, as in the source. -/
def Resource.matchTypes (env : Env) (arn : ARNModel) (pattern : Str)
    (_ctx : List Str) : Except Err (List Str) :=
  matchE (Resource.choices env arn []) (split_resource pattern).1

/-- Lines 148-162 of `Resource.enumerate`: from the resource class and the
parsed resource id, the keyword arguments inserted for server-side filtering
and the `do_client_side_filtering` flag. -/
def serverFilterArgs (cls : RClass) (resource_id : Option Str) :
    List (Str × CallArg) × Bool :=
  match resource_id with
  | some rid =>
    if !rid.isEmpty && rid ≠ starTok then
      match cls.meta.filter_name with
      | some fn =>
        if !fn.isEmpty then
          if cls.meta.filter_type = ("list".toList) then
            ([(fn, CallArg.listv [rid])], false)
          else
            ([(fn, CallArg.single rid)], false)
        else ([], true)
      | none => ([], true)
    else ([], false)
  | none => ([], false)

/-- The per-item loop at the bottom of `Resource.enumerate`: when client-side
filtering is required, an item survives only if `resource_cls.filter` accepts
it for the requested id; otherwise every item survives. -/
def yieldItems (cls : RClass) (resource_id : Option Str) (doCSF : Bool)
    (data : List Item) : List Item :=
  data.filter (fun d => !doCSF || cls.filterFn (resource_id.getD []) d)

/-- Python dict `base.update(extra)`: existing keys keep their position with
the new value, new keys are appended in order. -/
def dictUpdate (base extra : List (Str × CallArg)) : List (Str × CallArg) :=
  base.map (fun kv =>
    match extra.lookup kv.1 with
    | some v => (kv.1, v)
    | none => kv) ++
  extra.filter (fun kv => (base.lookup kv.1).isNone)

/-- Sequence a fallible list-producing function over a list, concatenating the
results: the purely-functional reading of a generator loop whose body may
raise.  The first error wins. -/
def exceptFlatMap (f : α → Except Err (List β)) : List α → Except Err (List β)
  | [] => Except.ok []
  | x :: rest => do
    let ys ← f x
    let zs ← exceptFlatMap f rest
    pure (ys ++ zs)

/-- Embedding of `Resource.enumerate`.  The context at this point is
`[scheme, provider, service, region, account]`.  The account is resolved to a
profile first (its KeyError propagates); the botocore session, service and
endpoint construction are opaque collaborators folded into `env.call`.  For
each matched resource type, the class is looked up by dotted path, the
server-side filter arguments and client-side flag are computed, the extra
arguments are merged, the endpoint is called, and the surviving items are
yielded. -/
def Resource.enumerate (env : Env) (arn : ARNModel) (ctx : List Str) :
    Except Err (List Item) := do
  let provider := ctx.getD 1 []
  let service_name := ctx.getD 2 []
  let account := ctx.getD 4 []
  let _profile ← map_account_to_profile env.account_map account
  let resource_id := (split_resource arn.resourcePattern).2
  let ms ← Resource.matchTypes env arn arn.resourcePattern ctx
  exceptFlatMap (fun resource_type =>
    let resource_path := joinSep '.' [provider, service_name, resource_type]
    let cls := env.find_resource_class resource_path
    let (fargs, doCSF) := serverFilterArgs cls resource_id
    match cls.meta.enum_spec with
    | (enum_op, path, extra) =>
      let kwargs := dictUpdate fargs (extra.getD [])
      let data := env.call enum_op path kwargs ctx
      Except.ok (yieldItems cls resource_id doCSF data)) ms

/-- Embedding of `Account.enumerate`: for each account matched by the account
pattern against the map's keys, descend into `Resource.enumerate` with the
context extended by that match. -/
def Account.enumerate (env : Env) (arn : ARNModel) (ctx : List Str) :
    Except Err (List Item) := do
  let ms ← matchE (Account.choices env) arn.accountPattern
  exceptFlatMap (fun m => Resource.enumerate env arn (ctx ++ [m])) ms

/-- Embedding of `Region.enumerate`. -/
def Region.enumerate (env : Env) (arn : ARNModel) (ctx : List Str) :
    Except Err (List Item) := do
  let ms ← matchE (Region.choices arn ctx) arn.regionPattern
  exceptFlatMap (fun m => Account.enumerate env arn (ctx ++ [m])) ms

/-- Embedding of `Service.enumerate`. -/
def Service.enumerate (env : Env) (arn : ARNModel) (ctx : List Str) :
    Except Err (List Item) := do
  let ms ← matchE (Service.choices env arn ctx) arn.servicePattern
  exceptFlatMap (fun m => Region.enumerate env arn (ctx ++ [m])) ms

/-- Embedding of `Provider.enumerate`. -/
def Provider.enumerate (env : Env) (arn : ARNModel) (ctx : List Str) :
    Except Err (List Item) := do
  let ms ← matchE Provider.choices arn.providerPattern
  exceptFlatMap (fun m => Service.enumerate env arn (ctx ++ [m])) ms

/-- Embedding of `Scheme.enumerate`. -/
def Scheme.enumerate (env : Env) (arn : ARNModel) (ctx : List Str) :
    Except Err (List Item) := do
  let ms ← matchE Scheme.choices arn.schemePattern
  exceptFlatMap (fun m => Provider.enumerate env arn (ctx ++ [m])) ms

/-- Embedding of `ARN.__iter__`: start the traversal at the Scheme level with
an empty context. -/
def arnIter (env : Env) (arn : ARNModel) : Except Err (List Item) :=
  Scheme.enumerate env arn []

/-- The `Meta` class of `skew.resources.aws.cloudwatch.Alarm`, the fields that
`Resource.enumerate` reads. -/
def alarmMeta : RMeta :=
  { enum_spec := ("DescribeAlarms".toList, "MetricAlarms".toList, none)
    filter_name := some ("alarm_names".toList)
    filter_type := "list".toList }

/-! Basic lemmas about the regex fragment and the string operations. -/

/-- The compiled `.*` matches a prefix of every string. -/
theorem reMatchHere_dotStar (s : Str) : reMatchHere dotStarRE s = true := by
  simp [reMatchHere, dotStarRE, reMatchFuel]

/-- The compiled `.*` search-matches every string. -/
theorem reSearch_dotStar (s : Str) : reSearch dotStarRE s = true := by
  cases s <;> simp [reSearch, reMatchHere_dotStar]

/-- The wildcard token matches every choices list whole. -/
theorem matchE_star (cs : List Str) : matchE cs starTok = Except.ok cs := by
  show Except.ok (cs.filter (fun c => reSearch dotStarRE c)) = Except.ok cs
  rw [List.filter_eq_self.mpr (fun c _ => reSearch_dotStar c)]

/-- A string without the separator does not split. -/
theorem splitOnceAux_not_mem {sep : Char} {f : Str} (h : sep ∉ f) :
    splitOnceAux sep f = none := by
  induction f with
  | nil => rfl
  | cons c cs ih =>
    have h1 : ¬(c = sep) := by rintro rfl; exact h (List.mem_cons_self _ _)
    have h2 : sep ∉ cs := fun hm => h (List.mem_cons_of_mem _ hm)
    simp [splitOnceAux, h1, ih h2]

/-- Splitting at the first separator occurrence. -/
theorem splitOnceAux_append {sep : Char} {f t : Str} (h : sep ∉ f) :
    splitOnceAux sep (f ++ sep :: t) = some (f, t) := by
  induction f with
  | nil => simp [splitOnceAux]
  | cons c cs ih =>
    have h1 : ¬(c = sep) := by rintro rfl; exact h (List.mem_cons_self _ _)
    have h2 : sep ∉ cs := fun hm => h (List.mem_cons_of_mem _ hm)
    simp [splitOnceAux, h1, ih h2]

/-- A separator-free string survives `split` whole, whatever the maxsplit. -/
theorem pySplit_no_sep {sep : Char} {f : Str} (h : sep ∉ f) (n : Nat) :
    pySplit sep n f = [f] := by
  cases n with
  | zero => rfl
  | succ m => simp [pySplit, splitOnceAux_not_mem h]

/-- Joining separator-free fields and splitting again is the identity, as long
as the maxsplit allows at least `fields.length - 1` splits. -/
theorem pySplit_joinSep {sep : Char} :
    ∀ (fields : List Str) (n : Nat), fields ≠ [] →
      (∀ f ∈ fields, sep ∉ f) → fields.length ≤ n + 1 →
      pySplit sep n (joinSep sep fields) = fields
  | [], _, hne, _, _ => absurd rfl hne
  | [f], n, _, hfree, _ => by
    simpa [joinSep] using pySplit_no_sep (hfree f (by simp)) n
  | f :: g :: rest, 0, _, _, hlen => by
    simp [List.length_cons] at hlen
  | f :: g :: rest, n + 1, _, hfree, hlen => by
    have hf : sep ∉ f := hfree f (List.mem_cons_self _ _)
    have hrest : ∀ x ∈ g :: rest, sep ∉ x := fun x hx => hfree x (List.mem_cons_of_mem _ hx)
    have hlen2 : (g :: rest).length ≤ n + 1 := by
      simp [List.length_cons] at hlen ⊢; omega
    simp [joinSep, pySplit, splitOnceAux_append hf,
      pySplit_joinSep (g :: rest) n (by simp) hrest hlen2]

/-- A character other than the separator is absent from a join of fields it is
absent from. -/
theorem joinSep_not_mem {c sep : Char} (hne : c ≠ sep) :
    ∀ {fields : List Str}, (∀ f ∈ fields, c ∉ f) → c ∉ joinSep sep fields
  | [], _ => by simp [joinSep]
  | [f], h => by simpa [joinSep] using h f (by simp)
  | f :: g :: rest, h => by
    have h1 := h f (List.mem_cons_self _ _)
    have h2 : ∀ x ∈ g :: rest, c ∉ x := fun x hx => h x (List.mem_cons_of_mem _ hx)
    simp [joinSep, List.mem_append, h1, hne, joinSep_not_mem hne h2]

/-- An error raised before the loop body propagates out of the Except bind. -/
theorem except_bind_error {α β : Type} {e : Err} (k : α → Except Err β) :
    (Except.error e >>= k) = Except.error e := rfl

/-- A loop whose every iteration yields nothing and raises nothing yields
nothing and raises nothing. -/
theorem exceptFlatMap_ok_nil {α β : Type} {f : α → Except Err (List β)} :
    ∀ {xs : List α}, (∀ x ∈ xs, f x = Except.ok []) →
      exceptFlatMap f xs = Except.ok []
  | [], _ => rfl
  | x :: rest, h => by
    have hx := h x (List.mem_cons_self _ _)
    have hr := exceptFlatMap_ok_nil (fun y hy => h y (List.mem_cons_of_mem _ hy))
    simp [exceptFlatMap, hx, hr]
    rfl

/-- Assoc-list lookup misses exactly the absent keys. -/
theorem lookup_eq_none_iff {m : List (Str × Str)} {a : Str} :
    m.lookup a = none ↔ a ∉ m.map Prod.fst := by
  induction m with
  | nil => simp [List.lookup]
  | cons kv rest ih =>
    obtain ⟨k, v⟩ := kv
    by_cases hk : a = k
    · subst hk; simp [List.lookup]
    · have hbeq : (a == k) = false := beq_eq_false_iff_ne.mpr hk
      simp [List.lookup, hbeq, hk, ih]

/-! Per-claim theorems. -/

/-- C1: the claim says construction splits on `:` with a maximum of 5 splits
into exactly six component patterns, extra colons being absorbed verbatim into
the resource field without error.  The source instead splits with maxsplit 6;
on an input with six colons the seventh field makes `zip_longest` pad the
class list with the string `'*'`, which is then called as a constructor and
raises TypeError.  This theorem evaluates the code at such an input (which has
no `|` suffix, so the claim covers it): construction fails, while an input
with fewer than six fields still gets its missing fields defaulted to `*`. -/
theorem C1_split_eval :
    build_components_from_string
        ("arn:aws:cloudwatch:us-east-1:123456789:alarm:my-alarm".toList) = none ∧
    '|' ∉ ("arn:aws:cloudwatch:us-east-1:123456789:alarm:my-alarm".toList) ∧
    build_components_from_string ("arn:aws:ec2".toList)
      = some ⟨["arn".toList, "aws".toList, "ec2".toList,
               starTok, starTok, starTok], none⟩ :=
  ⟨rfl, by decide, rfl⟩

/-- C2: the shared `ARNComponent.match` compiles the token (rewriting `*` to
match-all) and returns exactly the elements of the choices list, in their
original order, that the compiled expression search-matches; in particular
`match('*', context)` returns the whole choices list, for every choices
list. -/
theorem C2_match_regex_filter :
    (∀ cs : List Str, matchE cs starTok = Except.ok cs) ∧
    (∀ (cs : List Str) (tok : Str) (r : List RItem),
      reCompile (starRewrite tok) = some r →
      matchE cs tok = Except.ok (cs.filter (fun c => reSearch r c)) ∧
      (cs.filter (fun c => reSearch r c)).Sublist cs ∧
      (∀ c, c ∈ cs.filter (fun c => reSearch r c) ↔ c ∈ cs ∧ reSearch r c = true)) := by
  refine ⟨matchE_star, fun cs tok r hc => ⟨?_, List.filter_sublist _, fun c => by simp⟩⟩
  simp [matchE, hc]

/-- Witness for C2 at concrete inputs: the wildcard returns the whole list,
and the token `east` keeps exactly the substring-matching candidate. -/
theorem C2_witness :
    matchE [("us-east-1".toList), ("us-west-2".toList)] starTok
      = Except.ok [("us-east-1".toList), ("us-west-2".toList)] ∧
    matchE [("us-east-1".toList), ("us-west-2".toList)] ("east".toList)
      = Except.ok [("us-east-1".toList)] := by
  constructor
  · exact C2_match_regex_filter.1 _
  · exact (C2_match_regex_filter.2 [("us-east-1".toList), ("us-west-2".toList)]
      ("east".toList) _ rfl).1

/-- Environment for the C3 evaluation: the registry knows the resource type
`alarm` for the service `cloudwatch` and nothing for any other service. -/
def env3 : Env :=
  { all_services := fun _ => ["cloudwatch".toList]
    all_types := fun _ s => if s = ("cloudwatch".toList) then ["alarm".toList] else []
    account_map := []
    find_resource_class := fun _ =>
      { meta := alarmMeta, filterFn := fun _ _ => true }
    call := fun _ _ _ _ => [] }

/-- ARN for the C3 evaluation: the service pattern is the wildcard `*`. -/
def arn3 : ARNModel :=
  ⟨["arn".toList, "aws".toList, starTok, starTok, starTok, starTok], none⟩

/-- Traversal context for the C3 evaluation: the service has been resolved to
`cloudwatch`. -/
def ctx3 : List Str :=
  ["arn".toList, "aws".toList, "cloudwatch".toList, "us-east-1".toList,
   "123456789".toList]

/-- C3: the claim says `Resource.match(token, context)` filters the resource
types the registry returns for the (provider, service) resolved from the
context.  The source line `super(Resource, self).match(resource_type)` drops
the context, so the inner `choices` call runs with `context=None` and uses the
ARN's own service pattern instead of the resolved service.  Evaluation: with
the service resolved to `cloudwatch` in the context, the registry holds the
type `alarm` (so under the claim token `alarm` would match it, third and
second conjuncts), but the code returns no match at all (first conjunct),
because it looked up types for the service pattern `*`. -/
theorem C3_context_dropped :
    Resource.matchTypes env3 arn3 ("alarm".toList) ctx3 = Except.ok [] ∧
    Resource.choices env3 arn3 ctx3 = ["alarm".toList] ∧
    matchE ["alarm".toList] ("alarm".toList) = Except.ok ["alarm".toList] :=
  ⟨rfl, rfl, rfl⟩

/-- ARN for the C4 evaluation: the service pattern is `redshift`, one of the
restricted services. -/
def arn4 : ARNModel :=
  ⟨["arn".toList, "aws".toList, "redshift".toList, starTok, starTok, starTok], none⟩

/-- C4: the claim says that with no context the region lookup key is the
locator's own service pattern, so a restricted service's candidates stay
inside its limited region list.  The source's no-context branch computes
`service = self._arn.service` — the component object, not its `.pattern`
string — and a string-keyed dict `.get` never matches it, so the full region
list is returned even for `redshift`: `sa-east-1` is offered although it is
outside the limited list.  (The with-context branch, last conjunct, behaves as
claimed.) -/
theorem C4_region_lookup_object :
    arn4.servicePattern = ("redshift".toList) ∧
    Region.choices arn4 [] = all_region_names ∧
    ("sa-east-1".toList) ∈ Region.choices arn4 [] ∧
    ("sa-east-1".toList) ∉ region_names_limited ∧
    Region.choices arn4 (["arn".toList, "aws".toList, "redshift".toList])
      = region_names_limited :=
  ⟨rfl, rfl, by decide, by decide, rfl⟩

/-- C7: splitting a resource token: a token containing `/` splits once on the
first `/` into type and id; a token with no `/` but containing `:` splits once
on the first `:`; otherwise the whole token is the type and the id is `none`.
The three concrete examples of the claim are evaluated as final conjuncts. -/
theorem C7_split_resource_rule :
    (∀ t i : Str, '/' ∉ t → split_resource (t ++ '/' :: i) = (t, some i)) ∧
    (∀ t i : Str, '/' ∉ t ++ ':' :: i → ':' ∉ t →
      split_resource (t ++ ':' :: i) = (t, some i)) ∧
    (∀ s : Str, '/' ∉ s → ':' ∉ s → split_resource s = (s, none)) ∧
    split_resource ("alarm/my-alarm".toList)
      = ("alarm".toList, some ("my-alarm".toList)) ∧
    split_resource ("alarm:my-alarm".toList)
      = ("alarm".toList, some ("my-alarm".toList)) ∧
    split_resource ("alarm".toList) = ("alarm".toList, none) := by
  refine ⟨?_, ?_, ?_, by decide, by decide, by decide⟩
  · intro t i h
    have hmem : '/' ∈ t ++ '/' :: i := List.mem_append.mpr (Or.inr (List.mem_cons_self _ _))
    simp [split_resource, hmem, splitOnceAux_append h]
  · intro t i hslash hcolon
    have hmem : ':' ∈ t ++ ':' :: i := List.mem_append.mpr (Or.inr (List.mem_cons_self _ _))
    simp [split_resource, hslash, hmem, splitOnceAux_append hcolon]
  · intro s hslash hcolon
    simp [split_resource, hslash, hcolon]

/-- Witness for C7 at concrete inputs discharging each hypothesis. -/
theorem C7_witness :
    split_resource ("vol/v-1".toList) = ("vol".toList, some ("v-1".toList)) ∧
    split_resource ("tab:t-1".toList) = ("tab".toList, some ("t-1".toList)) ∧
    split_resource ("queue".toList) = ("queue".toList, none) := by
  refine ⟨?_, ?_, ?_⟩
  · exact C7_split_resource_rule.1 ("vol".toList) ("v-1".toList) (by decide)
  · exact C7_split_resource_rule.2.1 ("tab".toList) ("t-1".toList) (by decide) (by decide)
  · exact C7_split_resource_rule.2.2.1 ("queue".toList) (by decide) (by decide)

/-- C8: for a fully-concrete six-field input (each field free of `:`, `|` and
wildcards), construction succeeds, the components are exactly the six fields,
and serializing reproduces the colon-joined input exactly. -/
theorem C8_round_trip (fields : List Str) (h6 : fields.length = 6)
    (hcolon : ∀ f ∈ fields, ':' ∉ f) (hbar : ∀ f ∈ fields, '|' ∉ f)
    (hstar : ∀ f ∈ fields, '*' ∉ f) :
    build_components_from_string (joinSep ':' fields) = some ⟨fields, none⟩ ∧
    reprStr ⟨fields, none⟩ = joinSep ':' fields := by
  have hnb : '|' ∉ joinSep ':' fields := joinSep_not_mem (by decide) hbar
  have hstrip : stripQuery (joinSep ':' fields) = some (joinSep ':' fields, none) := by
    simp [stripQuery, hnb]
  have hne : fields ≠ [] := by rintro rfl; simp at h6
  have hsplit : pySplit ':' 6 (joinSep ':' fields) = fields :=
    pySplit_joinSep fields 6 hne hcolon (by omega)
  refine ⟨?_, rfl⟩
  simp [build_components_from_string, hstrip, hsplit, h6]

/-- Witness for C8 at a concrete fully-specified six-field locator string. -/
theorem C8_witness :
    build_components_from_string
        ("arn:aws:ec2:us-east-1:123456789:volume/vol-1".toList)
      = some ⟨["arn".toList, "aws".toList, "ec2".toList, "us-east-1".toList,
               "123456789".toList, "volume/vol-1".toList], none⟩ ∧
    reprStr ⟨["arn".toList, "aws".toList, "ec2".toList, "us-east-1".toList,
              "123456789".toList, "volume/vol-1".toList], none⟩
      = ("arn:aws:ec2:us-east-1:123456789:volume/vol-1".toList) := by
  exact C8_round_trip
    ["arn".toList, "aws".toList, "ec2".toList, "us-east-1".toList,
     "123456789".toList, "volume/vol-1".toList]
    (by decide) (by decide) (by decide) (by decide)

/-- C5: in the terminal enumeration step, with a parsed non-wildcard resource
id: when the class metadata declares a filter field name, the id is inserted
as that keyword argument, wrapped in a one-element list exactly when the
declared filter kind is `list`, and no client-side filtering is flagged; when
no filter field is declared, no keyword argument is inserted, client-side
filtering is flagged, and only raw items accepted by the class's id filter are
yielded. -/
theorem C5_terminal_filtering (cls : RClass) (rid : Str)
    (hne : rid ≠ []) (hnw : rid ≠ starTok) :
    (∀ fn, cls.meta.filter_name = some fn → fn ≠ [] →
      serverFilterArgs cls (some rid)
        = ([(fn, if cls.meta.filter_type = ("list".toList) then CallArg.listv [rid]
                 else CallArg.single rid)], false)) ∧
    (strTruthy cls.meta.filter_name = false →
      serverFilterArgs cls (some rid) = ([], true) ∧
      ∀ data : List Item, yieldItems cls (some rid) true data
        = data.filter (fun d => cls.filterFn rid d)) := by
  have h1 : rid.isEmpty = false := by
    cases rid with
    | nil => exact absurd rfl hne
    | cons c cs => rfl
  constructor
  · intro fn hfn hfne
    have h2 : fn.isEmpty = false := by
      cases fn with
      | nil => exact absurd rfl hfne
      | cons c cs => rfl
    simp [serverFilterArgs, h1, hnw, hfn, h2]
    split <;> simp [*]
  · intro hfalsy
    constructor
    · cases hval : cls.meta.filter_name with
      | none => simp [serverFilterArgs, h1, hnw, hval]
      | some s =>
        have hs : s.isEmpty = true := by
          rw [hval] at hfalsy
          simpa [strTruthy] using hfalsy
        simp [serverFilterArgs, h1, hnw, hval, hs]
    · intro data
      simp [yieldItems]

/-- Resource class for the C5 witness declaring no filter field. -/
def cls5b : RClass :=
  { meta := { enum_spec := ("DescribeThings".toList, "Things".toList, none)
              filter_name := none
              filter_type := [] }
    filterFn := fun rid d => rid = d }

/-- Witness for C5: the cloudwatch Alarm metadata (list-kind filter field
`alarm_names`) wraps the id in a one-element list; a class with no filter
field flags client-side filtering and only items accepted by its id filter
survive. -/
theorem C5_witness :
    serverFilterArgs { meta := alarmMeta, filterFn := fun _ _ => true }
        (some ("my-alarm".toList))
      = ([(("alarm_names".toList), CallArg.listv [("my-alarm".toList)])], false) ∧
    serverFilterArgs cls5b (some ("my-id".toList)) = ([], true) ∧
    yieldItems cls5b (some ("my-id".toList)) true [("my-id".toList), ("other".toList)]
      = [("my-id".toList)] := by
  refine ⟨?_, ?_, ?_⟩
  · exact ((C5_terminal_filtering
      { meta := alarmMeta, filterFn := fun _ _ => true } ("my-alarm".toList)
      (by decide) (by decide)).1 ("alarm_names".toList) rfl (by decide)).trans (by decide)
  · exact ((C5_terminal_filtering cls5b ("my-id".toList)
      (by decide) (by decide)).2 rfl).1
  · exact (((C5_terminal_filtering cls5b ("my-id".toList)
      (by decide) (by decide)).2 rfl).2
      [("my-id".toList), ("other".toList)]).trans (by decide)

/-- C6: when the service pattern matches none of the registry's service names
for the resolved provider (always `aws`), the Service level produces zero
matches and the whole traversal yields zero resources without raising; the
empty branch is silently pruned inside the flatMap over the parent's
matches. -/
theorem C6_unknown_service (env : Env) (arn : ARNModel)
    (rs : List RItem) (hs : reCompile (starRewrite arn.schemePattern) = some rs)
    (rp : List RItem) (hp : reCompile (starRewrite arn.providerPattern) = some rp)
    (rv : List RItem) (hv : reCompile (starRewrite arn.servicePattern) = some rv)
    (hmiss : ∀ s ∈ env.all_services ("aws".toList), reSearch rv s = false) :
    matchE (env.all_services ("aws".toList)) arn.servicePattern = Except.ok [] ∧
    arnIter env arn = Except.ok [] := by
  have hsvc : matchE (env.all_services ("aws".toList)) arn.servicePattern
      = Except.ok [] := by
    have hf : (env.all_services ("aws".toList)).filter (fun c => reSearch rv c) = [] := by
      refine List.filter_eq_nil_iff.mpr ?_
      intro a ha
      simp [hmiss a ha]
    simp only [matchE, hv]
    rw [hf]
  refine ⟨hsvc, ?_⟩
  have hserv : ∀ m0 : Str,
      Service.enumerate env arn [m0, ("aws".toList)] = Except.ok [] := by
    intro m0
    have hch : Service.choices env arn [m0, ("aws".toList)]
        = env.all_services ("aws".toList) := rfl
    simp only [Service.enumerate, hch, hsvc]
    rfl
  have hprov : ∀ m0 : Str, Provider.enumerate env arn [m0] = Except.ok [] := by
    intro m0
    have hm : matchE Provider.choices arn.providerPattern
        = Except.ok (Provider.choices.filter (fun c => reSearch rp c)) := by
      simp [matchE, hp]
    have hall : ∀ m ∈ Provider.choices.filter (fun c => reSearch rp c),
        Service.enumerate env arn ([m0] ++ [m]) = Except.ok [] := by
      intro m hmem
      have hmm : m = ("aws".toList) := by
        have h' := List.mem_filter.mp hmem
        simpa [Provider.choices] using h'.1
      rw [hmm]
      exact hserv m0
    simp only [Provider.enumerate, hm]
    exact exceptFlatMap_ok_nil hall
  have hm0 : matchE Scheme.choices arn.schemePattern
      = Except.ok (Scheme.choices.filter (fun c => reSearch rs c)) := by
    simp [matchE, hs]
  have hall0 : ∀ m ∈ Scheme.choices.filter (fun c => reSearch rs c),
      Provider.enumerate env arn ([] ++ [m]) = Except.ok [] :=
    fun m _ => hprov m
  show Scheme.enumerate env arn [] = Except.ok []
  simp only [Scheme.enumerate, hm0]
  exact exceptFlatMap_ok_nil hall0

/-- Environment for the C6 witness: the registry's only service is `s3`. -/
def env6 : Env :=
  { all_services := fun _ => ["s3".toList]
    all_types := fun _ _ => []
    account_map := []
    find_resource_class := fun _ => { meta := alarmMeta, filterFn := fun _ _ => true }
    call := fun _ _ _ _ => [] }

/-- ARN for the C6 witness: service pattern `ec2`, unknown to the registry. -/
def arn6 : ARNModel :=
  ⟨["arn".toList, "aws".toList, "ec2".toList, starTok, starTok, starTok], none⟩

/-- Witness for C6: a locator naming the unknown service `ec2` yields zero
matches at the Service level and an empty overall traversal, without error. -/
theorem C6_witness :
    matchE (env6.all_services ("aws".toList)) arn6.servicePattern = Except.ok [] ∧
    arnIter env6 arn6 = Except.ok [] :=
  C6_unknown_service env6 arn6 _ rfl _ rfl _ rfl (by decide)

/-- C9: resolving an account id to a profile succeeds with the mapped profile
exactly when the id is a key of the once-built account map; for any id absent
from the map it fails with the account-resolution error (the KeyError of the
dict lookup, AccountResolutionError in the spec's taxonomy); and that failure
propagates unmodified out of `Resource.enumerate`, the terminal step of the
traversal. -/
theorem C9_account_resolution :
    (∀ (m : List (Str × Str)) (a : Str),
      (∃ p, map_account_to_profile m a = Except.ok p ∧ m.lookup a = some p)
        ↔ a ∈ m.map Prod.fst) ∧
    (∀ (m : List (Str × Str)) (a : Str), a ∉ m.map Prod.fst →
      map_account_to_profile m a = Except.error (Err.accountResolution a)) ∧
    (∀ (env : Env) (arn : ARNModel) (ctx : List Str) (e : Err),
      map_account_to_profile env.account_map (ctx.getD 4 []) = Except.error e →
      Resource.enumerate env arn ctx = Except.error e) := by
  refine ⟨?_, ?_, ?_⟩
  · intro m a
    constructor
    · rintro ⟨p, -, hl⟩
      by_contra hmem
      rw [lookup_eq_none_iff.mpr hmem] at hl
      exact Option.noConfusion hl
    · intro hmem
      cases hl : m.lookup a with
      | none => exact absurd hmem (lookup_eq_none_iff.mp hl)
      | some p => exact ⟨p, by simp [map_account_to_profile, hl], rfl⟩
  · intro m a hmem
    simp [map_account_to_profile, lookup_eq_none_iff.mpr hmem]
  · intro env arn ctx e h
    simp only [Resource.enumerate]
    rw [h]
    rfl

/-- Environment for the C9 witness: one profile mapped from account `123`. -/
def env9 : Env :=
  { all_services := fun _ => ["cloudwatch".toList]
    all_types := fun _ _ => ["alarm".toList]
    account_map := [("123".toList, "default".toList)]
    find_resource_class := fun _ => { meta := alarmMeta, filterFn := fun _ _ => true }
    call := fun _ _ _ _ => [] }

/-- ARN for the C9 witness. -/
def arn9 : ARNModel :=
  ⟨["arn".toList, "aws".toList, "cloudwatch".toList, "us-east-1".toList,
    "999".toList, "alarm/a-1".toList], none⟩

/-- Context for the C9 witness: the resolved account `999` is not in the map. -/
def ctx9 : List Str :=
  ["arn".toList, "aws".toList, "cloudwatch".toList, "us-east-1".toList,
   "999".toList]

/-- Witness for C9: the mapped account `123` resolves, the unmapped account
`999` fails with the account-resolution error, and that error propagates out
of the terminal enumeration step unmodified. -/
theorem C9_witness :
    (∃ p, map_account_to_profile [(("123".toList), ("default".toList))] ("123".toList)
        = Except.ok p ∧
      ([(("123".toList), ("default".toList))] : List (Str × Str)).lookup ("123".toList)
        = some p) ∧
    map_account_to_profile env9.account_map ("999".toList)
      = Except.error (Err.accountResolution ("999".toList)) ∧
    Resource.enumerate env9 arn9 ctx9
      = Except.error (Err.accountResolution ("999".toList)) :=
  ⟨(C9_account_resolution.1 _ _).mpr (by decide),
   C9_account_resolution.2.1 _ _ (by decide),
   C9_account_resolution.2.2 env9 arn9 ctx9 _ rfl⟩

/-- C10: when the registry reports no resource types for the looked-up
(provider, service), `Resource.choices` returns `['*']` rather than the empty
list, so the Resource level is not pruned by empty choices: a `*` resource
pattern still produces the single match `*` there. -/
theorem C10_star_fallback (env : Env) (arn : ARNModel) (ctx : List Str)
    (h0 : env.all_types arn.providerPattern
        (if ctx.isEmpty then arn.servicePattern else ctx.getD 2 []) = [])
    (hN : env.all_types arn.providerPattern arn.servicePattern = []) :
    Resource.choices env arn ctx = [starTok] ∧
    Resource.matchTypes env arn starTok ctx = Except.ok [starTok] := by
  constructor
  · show (if (env.all_types arn.providerPattern
            (if ctx.isEmpty then arn.servicePattern else ctx.getD 2 [])).isEmpty
          then [starTok]
          else env.all_types arn.providerPattern
            (if ctx.isEmpty then arn.servicePattern else ctx.getD 2 [])) = [starTok]
    rw [h0]
    rfl
  · have hch : Resource.choices env arn [] = [starTok] := by
      show (if (env.all_types arn.providerPattern arn.servicePattern).isEmpty
            then [starTok]
            else env.all_types arn.providerPattern arn.servicePattern) = [starTok]
      rw [hN]
      rfl
    show matchE (Resource.choices env arn []) (split_resource starTok).1
      = Except.ok [starTok]
    rw [hch]
    exact matchE_star [starTok]

/-- Environment for the C10 witness: the registry knows no resource types. -/
def env10 : Env :=
  { all_services := fun _ => ["cloudwatch".toList]
    all_types := fun _ _ => []
    account_map := []
    find_resource_class := fun _ => { meta := alarmMeta, filterFn := fun _ _ => true }
    call := fun _ _ _ _ => [] }

/-- ARN for the C10 witness. -/
def arn10 : ARNModel :=
  ⟨["arn".toList, "aws".toList, "cloudwatch".toList, starTok, starTok, starTok], none⟩

/-- Witness for C10: with an empty registry answer, choices is `['*']` and the
wildcard resource pattern matches `['*']`. -/
theorem C10_witness :
    Resource.choices env10 arn10 [] = [starTok] ∧
    Resource.matchTypes env10 arn10 starTok [] = Except.ok [starTok] :=
  C10_star_fallback env10 arn10 [] rfl rfl

end Skew
